import Mathlib

/-!
Verification of the vbase-cli repository (Python CLI for object commitment
and verification) against its natural-language specification.

The development shallowly embeds the CLI's own logic from
`src/vbasecli/vbase.py` and `src/vbasecli/config.py`:

* CLI parameter values are `Option String` (Python `None` / a string) and
  Python truthiness is `pyTruthy`.
* String primitives (`strip`, pattern matching) are modelled over the
  character list `String.data` so that every definition evaluates inside
  the kernel.
* Errors are `CliError`: `usage` models `click.UsageError` (exit code 2),
  `clickFail` models the `click.ClickException` raised by `fail()`
  (exit code 1), and `pyIndexError` models the Python `IndexError` raised
  when indexing an empty stdin token list.
* Timestamps are modelled as `Int` nanoseconds since the epoch, the
  resolution of `pd.Timestamp`; parsing of user-supplied timestamp strings
  (`pd.Timestamp(s)`, which raises `ValueError` on bad input) is an
  abstract parameter `pd_ts : String → Option Int`, and parsing of
  indexed commitment timestamps (assumed well-formed) is an abstract
  total parameter `pd : String → Int`.
* The external client library (`vbase`) is out of scope per the spec; its
  `verify_user_object` is an abstract boolean oracle and the indexing
  service's `find_objects` result is an explicit list argument.
-/

/-- Python truthiness of a string: `""` is falsy. -/
def strTruthy (s : String) : Bool := !s.data.isEmpty

/-- Python truthiness of an optional string: `None` and `""` are falsy. -/
def pyTruthy : Option String → Bool
  | none => false
  | some s => strTruthy s

/-- Whitespace characters removed by Python `str.strip()`. -/
def isPySpace (c : Char) : Bool :=
  c == ' ' || c == '\t' || c == '\n' || c == '\r' || c == '\x0b' || c == '\x0c'

/-- Python `str.strip()`: remove surrounding whitespace. -/
def pyStrip (s : String) : String :=
  ⟨((s.data.dropWhile isPySpace).reverse.dropWhile isPySpace).reverse⟩

/-- `s.startswith("0x")` (vbase.py line 104). -/
def startsWith0x (s : String) : Bool :=
  match s.data with
  | '0' :: 'x' :: _ => true
  | _ => false

/-- Errors surfaced by the CLI, with their process exit codes. -/
inductive CliError where
  /-- `click.UsageError` (exit code 2). -/
  | usage (msg : String)
  /-- `click.ClickException` raised by `fail()` in `vbase.py` (exit code 1). -/
  | clickFail (msg : String)
  /-- Python `IndexError` from `l_stdin_text_stream[0]` on an empty list. -/
  | pyIndexError
  deriving DecidableEq, Repr

/-- Exit code of each error kind (`click` semantics; an uncaught Python
exception exits with 1). -/
def cliErrorExitCode : CliError → Nat
  | .usage _ => 2
  | .clickFail _ => 1
  | .pyIndexError => 1

/-- A hexadecimal digit as in the character class `[0-9a-fA-F]`. -/
def isCidHexDigit (c : Char) : Bool :=
  (decide ('0' ≤ c) && decide (c ≤ '9')) || (decide ('a' ≤ c) && decide (c ≤ 'f'))
    || (decide ('A' ≤ c) && decide (c ≤ 'F'))

/-- The regular expression `^0x[0-9a-fA-F]{64}$` from
`verify_object_cid_value` (vbase.py line 47). -/
def matches_cid_pattern (s : String) : Bool :=
  startsWith0x s && s.data.length == 66 && (s.data.drop 2).all isCidHexDigit

/-- `verify_object_cid_value` (vbase.py lines 39-52): reject an empty CID,
then reject anything not matching `^0x[0-9a-fA-F]{64}$`. -/
def verify_object_cid_value (s : String) : Except CliError Unit :=
  if !strTruthy s then
    .error (.usage "Undefined object CID value.")
  else if !matches_cid_pattern s then
    .error (.usage ("Invalid object CID value: \"" ++ s ++
      "\". Please specify a valid 256-bit hex string."))
  else
    .ok ()

/-- The normalisation applied by `get_object_cid` (vbase.py lines 100-105):
strip surrounding whitespace, then prepend "0x" when the prefix is missing. -/
def cidNormalize (s : String) : String :=
  let v := pyStrip s
  if startsWith0x v then v else "0x" ++ v

/-- The tail of `get_object_cid` (vbase.py lines 97-111), applied to the
raw CID value once its source has been chosen: reject an empty value,
normalise (strip, prepend "0x" when missing), validate against the CID
pattern, and return the value with the remaining stdin token stream. -/
def get_object_cid_tail (raw : String) (stream : List String) :
    Except CliError (String × List String) :=
  if !strTruthy raw then
    .error (.usage "Undefined object CID value.")
  else
    match verify_object_cid_value (cidNormalize raw) with
    | .error e => .error e
    | .ok _ => .ok (cidNormalize raw, stream)

/-- `get_object_cid` (vbase.py lines 81-111): take the CID from the
`--object-cid` value when truthy, else from the head of the stdin token
stream when `--object-cid-stdin` is set (consuming it, and stripping the
token as on vbase.py line 90), else raise a usage error; then the common
tail. -/
def get_object_cid (object_cid : Option String) (object_cid_stdin : Bool)
    (l_stdin_text_stream : List String) :
    Except CliError (String × List String) :=
  if pyTruthy object_cid then
    get_object_cid_tail (object_cid.getD "") l_stdin_text_stream
  else if object_cid_stdin then
    match l_stdin_text_stream with
    | [] => .error .pyIndexError
    | t :: rest => get_object_cid_tail (pyStrip t) rest
  else
    .error (.usage "You must specify either --object-cid or --object-cid-stdin.")

/-- The tail of `get_timestamp` (vbase.py lines 130-135), applied to the
timestamp string once its source has been chosen: `verify_timestamp_value`
(lines 55-66) rejects an empty string and a string `pd.Timestamp` cannot
parse; the parsed value is returned with the remaining stdin token stream.
`pd_ts` models `pd.Timestamp` parsing, `none` standing for a raised
`ValueError`. -/
def get_timestamp_tail (pd_ts : String → Option Int) (str : String)
    (stream : List String) : Except CliError (Int × List String) :=
  if !strTruthy str then
    .error (.usage "Undefined timestamp value.")
  else
    match pd_ts str with
    | none =>
      .error (.usage ("Invalid timestamp value: \"" ++ str ++
        "\". Please specify a valid timestamp compatible with pd.Timestamp()."))
    | some v => .ok (v, stream)

/-- `get_timestamp` (vbase.py lines 114-135): take the timestamp string
from the `--timestamp` value when truthy, else from the head of the stdin
token stream when `--timestamp-stdin` is set (consuming it), else raise a
usage error; then the common validation tail. -/
def get_timestamp (pd_ts : String → Option Int) (timestamp : Option String)
    (timestamp_stdin : Bool) (l_stdin_text_stream : List String) :
    Except CliError (Int × List String) :=
  if pyTruthy timestamp then
    get_timestamp_tail pd_ts (timestamp.getD "") l_stdin_text_stream
  else if timestamp_stdin then
    match l_stdin_text_stream with
    | [] => .error .pyIndexError
    | t :: rest => get_timestamp_tail pd_ts (pyStrip t) rest
  else
    .error (.usage "You must specify either --timestamp or --timestamp-stdin.")

/-! ## Configuration (config.py and the `commitment_service` group) -/

/-- The command-line option values of the `commitment-service` group
(vbase.py lines 185-212), `none` when an option is not given. -/
structure CsKwargs where
  vb_api_key : Option String
  vb_cs_address : Option String
  vb_cs_node_rpc_url : Option String
  vb_cs_private_key : Option String
  vb_forwarder_url : Option String
  deriving DecidableEq, Repr

/-- An assignment of optional string values to the five `VBASE_*`
configuration variables: used both for the JSON config file contents and
for the process environment. -/
structure VBaseConfig where
  VBASE_API_KEY : Option String
  VBASE_COMMITMENT_SERVICE_ADDRESS : Option String
  VBASE_COMMITMENT_SERVICE_NODE_RPC_URL : Option String
  VBASE_COMMITMENT_SERVICE_PRIVATE_KEY : Option String
  VBASE_FORWARDER_URL : Option String
  deriving DecidableEq, Repr

/-- One variable of `load_config` (config.py line 50):
`config[var_name] = os.getenv(var_name, config.get(var_name))` — the
environment value when the variable is set (even to `""`), else the file
value. -/
def load_config_var (env : Option String) (file : Option String) : Option String :=
  match env with
  | some e => some e
  | none => file

/-- `load_config` (config.py lines 25-52), with the JSON file contents and
the environment as explicit arguments. -/
def load_config (file env : VBaseConfig) : VBaseConfig :=
  { VBASE_API_KEY :=
      load_config_var env.VBASE_API_KEY file.VBASE_API_KEY
    VBASE_COMMITMENT_SERVICE_ADDRESS :=
      load_config_var env.VBASE_COMMITMENT_SERVICE_ADDRESS file.VBASE_COMMITMENT_SERVICE_ADDRESS
    VBASE_COMMITMENT_SERVICE_NODE_RPC_URL :=
      load_config_var env.VBASE_COMMITMENT_SERVICE_NODE_RPC_URL file.VBASE_COMMITMENT_SERVICE_NODE_RPC_URL
    VBASE_COMMITMENT_SERVICE_PRIVATE_KEY :=
      load_config_var env.VBASE_COMMITMENT_SERVICE_PRIVATE_KEY file.VBASE_COMMITMENT_SERVICE_PRIVATE_KEY
    VBASE_FORWARDER_URL :=
      load_config_var env.VBASE_FORWARDER_URL file.VBASE_FORWARDER_URL }

/-- One key of the override loop in `commitment_service` (vbase.py lines
227-229): `if not kwargs[k]: kwargs[k] = config[v]` — the flag value when
truthy, else the loaded config value. -/
def resolve_kwarg (flag : Option String) (cfg : Option String) : Option String :=
  if pyTruthy flag then flag else cfg

/-- The whole override loop of `commitment_service` (vbase.py lines
220-230), pairing each kwarg with its config variable per
`args_config_dict`. -/
def resolve_kwargs (kw : CsKwargs) (cfg : VBaseConfig) : CsKwargs :=
  { vb_api_key := resolve_kwarg kw.vb_api_key cfg.VBASE_API_KEY
    vb_cs_address := resolve_kwarg kw.vb_cs_address cfg.VBASE_COMMITMENT_SERVICE_ADDRESS
    vb_cs_node_rpc_url := resolve_kwarg kw.vb_cs_node_rpc_url cfg.VBASE_COMMITMENT_SERVICE_NODE_RPC_URL
    vb_cs_private_key := resolve_kwarg kw.vb_cs_private_key cfg.VBASE_COMMITMENT_SERVICE_PRIVATE_KEY
    vb_forwarder_url := resolve_kwarg kw.vb_forwarder_url cfg.VBASE_FORWARDER_URL }

/-- The client object stored in `ctx.obj["vbc"]` by `commitment_service`
(vbase.py lines 233-248), recording the constructor used and the exact
argument strings passed to it. -/
inductive VBaseClientInit where
  /-- `VBaseClient(Web3HTTPCommitmentService(node_rpc_url, commitment_service_address, private_key))`. -/
  | node (node_rpc_url : Option String) (commitment_service_address : Option String)
      (private_key : Option String)
  /-- `VBaseClient(ForwarderCommitmentService(forwarder_url, api_key, private_key))`. -/
  | forwarder (forwarder_url : Option String) (api_key : Option String)
      (private_key : Option String)
  deriving DecidableEq, Repr

/-- The body of `commitment_service` (vbase.py lines 212-252): resolve each
option against the loaded config, then construct a node client when the
node RPC URL is truthy, else a forwarder client when the forwarder URL is
truthy, else raise a usage error. -/
def commitment_service (kw : CsKwargs) (cfg : VBaseConfig) :
    Except CliError VBaseClientInit :=
  let kw := resolve_kwargs kw cfg
  if pyTruthy kw.vb_cs_node_rpc_url then
    .ok (.node kw.vb_cs_node_rpc_url kw.vb_cs_address kw.vb_cs_private_key)
  else if pyTruthy kw.vb_forwarder_url then
    .ok (.forwarder kw.vb_forwarder_url kw.vb_api_key kw.vb_cs_private_key)
  else
    .error (.usage "You must specify either --vb-cs-node-rpc-url or --vb-forwarder-url.")

/-! ## The verify-object flow (vbase.py lines 328-387) -/

/-- One record returned by `indexing_service.find_objects(cid)`: a dict with
at least a `"timestamp"` entry, kept here as its raw string value. -/
structure CommitmentRecord where
  timestamp : String
  deriving DecidableEq, Repr

/-- Python `min(l, key=...)` over a non-empty list: keeps the current
minimum and replaces it only on a strictly smaller key, so the first
element with the minimal key wins, as in Python. -/
def pyMinBy {α : Type} (key : α → Int) : α → List α → α
  | best, [] => best
  | best, y :: ys => if key y < key best then pyMinBy key y ys else pyMinBy key best ys

/-- The `closest_object` selection (vbase.py lines 360-362):
`min(l_objects, key=lambda x: abs(pd.Timestamp(x["timestamp"]) - timestamp_value))`
over the non-empty list `x :: xs`. -/
def closest_object (pd : String → Int) (timestamp_value : Int)
    (x : CommitmentRecord) (xs : List CommitmentRecord) : CommitmentRecord :=
  pyMinBy (fun r => |pd r.timestamp - timestamp_value|) x xs

/-- `pd.Timedelta("1s")` in nanoseconds, the default tolerance
(vbase.py lines 379-380). -/
def one_second_ns : Int := 1000000000

/-- The core of `verify_object` after input parsing (vbase.py lines
349-387): fail when the indexing service returned no commitment; select
the commitment closest to the target timestamp; fail when the external
`verify_user_object(default_user, cid, closest["timestamp"])` check —
called on the closest commitment's raw indexed timestamp — returns false;
fail when `pd.Timestamp(closest["timestamp"]) - timestamp_value` exceeds
the tolerance (default one second); otherwise succeed, printing the found
commitment and "Timestamp verification succeeded.". `vuo` is the external
`verify_user_object` oracle taking (user, cid, raw timestamp). -/
def verify_object_core (pd : String → Int)
    (vuo : String → String → String → Bool) (default_user : String)
    (l_objects : List CommitmentRecord) (object_cid_value : String)
    (timestamp_value : Int) (timestamp_tol : Option Int) :
    Except CliError CommitmentRecord :=
  match l_objects with
  | [] => .error (.clickFail "No matching objects found.")
  | x :: xs =>
    if !(vuo default_user object_cid_value
        (closest_object pd timestamp_value x xs).timestamp) then
      .error (.clickFail "Commitment verification failed.")
    else if pd (closest_object pd timestamp_value x xs).timestamp
        - timestamp_value > timestamp_tol.getD one_second_ns then
      .error (.clickFail "Timestamp verification failed.")
    else
      .ok (closest_object pd timestamp_value x xs)

/-! ## The full command pipelines with the cloup option-group constraint -/

/-- The number of set parameters in the "Object CID options" group
(vbase.py lines 263-269 and 310-316): cloup counts an option as set when
its parsed value is not `None`, and a flag when it is `True`. -/
def cid_group_set_count (object_cid : Option String) (object_cid_stdin : Bool) : Nat :=
  (if object_cid.isSome then 1 else 0) + (if object_cid_stdin then 1 else 0)

/-- The `cloup.constraints.RequireExactly(1)` constraint declared on the
"Object CID options" group: satisfied exactly when one parameter of the
group is set. -/
def cid_group_constraint_ok (object_cid : Option String) (object_cid_stdin : Bool) : Bool :=
  cid_group_set_count object_cid object_cid_stdin == 1

/-- A call made to the external client library. -/
inductive ClientCall where
  /-- `vbc.add_object(object_cid_value)` (vbase.py line 292). -/
  | addObject (cid : String)
  deriving DecidableEq, Repr

/-- The `add_object` command (vbase.py lines 258-293) as a function from
its option values, the stdin token stream, and whether `ctx.obj["vbc"]`
was populated, to either a CLI error or the call made to the external
client: the cloup `RequireExactly(1)` constraint is checked at option
parsing time, then `get_object_cid` runs, then the `vbc` presence check,
then `vbc.add_object(object_cid_value)` is called. -/
def add_object_cli (object_cid : Option String) (object_cid_stdin : Bool)
    (l_stdin : List String) (vbc_defined : Bool) : Except CliError ClientCall :=
  if !cid_group_constraint_ok object_cid object_cid_stdin then
    .error (.usage "Exactly 1 of the following parameters must be set: --object-cid, --object-cid-stdin.")
  else
    match get_object_cid object_cid object_cid_stdin l_stdin with
    | .error e => .error e
    | .ok (object_cid_value, _) =>
      if !vbc_defined then
        .error (.usage "VBaseClient is not defined. Check the configuration.")
      else
        .ok (.addObject object_cid_value)

/-- The `verify_object` command (vbase.py lines 305-387) as a function:
the cloup `RequireExactly(1)` constraint on the CID group, then
`get_object_cid` and `get_timestamp` consume the shared stdin token
stream in order, then the `vbc` presence check, then the verification
core over the indexing service's result `find_objects cid`. -/
def verify_object_cli (pd_ts : String → Option Int) (pd : String → Int)
    (vuo : String → String → String → Bool) (default_user : String)
    (find_objects : String → List CommitmentRecord)
    (object_cid : Option String) (object_cid_stdin : Bool)
    (timestamp : Option String) (timestamp_stdin : Bool)
    (timestamp_tol : Option Int) (l_stdin : List String) (vbc_defined : Bool) :
    Except CliError CommitmentRecord :=
  if !cid_group_constraint_ok object_cid object_cid_stdin then
    .error (.usage "Exactly 1 of the following parameters must be set: --object-cid, --object-cid-stdin.")
  else
    match get_object_cid object_cid object_cid_stdin l_stdin with
    | .error e => .error e
    | .ok (object_cid_value, s1) =>
      match get_timestamp pd_ts timestamp timestamp_stdin s1 with
      | .error e => .error e
      | .ok (timestamp_value, _) =>
        if !vbc_defined then
          .error (.usage "VBaseClient is not defined. Check the configuration.")
        else
          verify_object_core pd vuo default_user (find_objects object_cid_value)
            object_cid_value timestamp_value timestamp_tol

/-! ## Helper lemmas -/

/-- A string matching the CID pattern is non-empty (it starts with "0x"). -/
lemma strTruthy_of_matches (v : String) (h : matches_cid_pattern v = true) :
    strTruthy v = true := by
  unfold matches_cid_pattern startsWith0x at h
  unfold strTruthy
  rcases hv : v.data with _ | ⟨c, l⟩ <;> rw [hv] at h <;> simp_all

/-- `verify_object_cid_value` accepts exactly the strings matching the CID
pattern. -/
lemma verify_object_cid_value_eq_ok (v : String)
    (h : matches_cid_pattern v = true) :
    verify_object_cid_value v = .ok () := by
  unfold verify_object_cid_value
  simp [h, strTruthy_of_matches v h]

/-- A successful `verify_object_cid_value` means the CID pattern matched. -/
lemma matches_of_verify_ok (v : String) (u : Unit)
    (h : verify_object_cid_value v = .ok u) :
    matches_cid_pattern v = true := by
  unfold verify_object_cid_value at h
  split at h
  · cases h
  · split at h
    · cases h
    · simp_all

/-- A successful `get_object_cid_tail` returns the normalised raw value,
leaves the stream untouched, and guarantees the CID pattern. -/
lemma get_object_cid_tail_ok (raw : String) (stream : List String)
    (v : String) (s : List String)
    (h : get_object_cid_tail raw stream = .ok (v, s)) :
    v = cidNormalize raw ∧ s = stream ∧ matches_cid_pattern v = true := by
  unfold get_object_cid_tail at h
  split at h
  · cases h
  · split at h
    · cases h
    · rename_i hverify
      obtain ⟨hv, hs⟩ : cidNormalize raw = v ∧ stream = s := by
        simpa using h
      subst hv; subst hs
      exact ⟨rfl, rfl, matches_of_verify_ok _ _ hverify⟩

/-- A successful `get_timestamp_tail` returns the parse of the chosen
string and leaves the stream untouched. -/
lemma get_timestamp_tail_ok (pd_ts : String → Option Int) (str : String)
    (stream : List String) (tv : Int) (s : List String)
    (h : get_timestamp_tail pd_ts str stream = .ok (tv, s)) :
    pd_ts str = some tv ∧ s = stream := by
  unfold get_timestamp_tail at h
  split at h
  · cases h
  · split at h
    · cases h
    · rename_i hp
      obtain ⟨hv, hs⟩ : _ ∧ stream = s := by simpa using h
      exact ⟨by rw [hp, hv], hs.symm⟩

/-- For a non-empty indexing result, the verification core ends in the
commitment-check failure exactly when the external oracle is false on the
closest commitment's raw indexed timestamp. -/
lemma verify_core_commit_check_iff (pd : String → Int)
    (vuo : String → String → String → Bool) (user cid : String)
    (tol : Option Int) (x : CommitmentRecord) (xs : List CommitmentRecord)
    (tv : Int) :
    verify_object_core pd vuo user (x :: xs) cid tv tol =
        .error (.clickFail "Commitment verification failed.") ↔
      vuo user cid (closest_object pd tv x xs).timestamp = false := by
  rcases hv : vuo user cid (closest_object pd tv x xs).timestamp with _ | _
  · simp [verify_object_core, hv]
  · constructor
    · intro h
      simp only [verify_object_core, hv, Bool.not_true, Bool.false_eq_true,
        if_false] at h
      split at h
      · simp at h
      · cases h
    · intro h
      cases h

/-- An absent flag resolves to the config value. -/
lemma resolve_kwarg_none (cfg : Option String) : resolve_kwarg none cfg = cfg := rfl

/-- An empty-string flag resolves to the config value. -/
lemma resolve_kwarg_empty (cfg : Option String) : resolve_kwarg (some "") cfg = cfg := rfl

/-! ## Claim theorems -/

/-- C1: evaluation of the code at the failing input. One commitment is
indexed, at epoch 0; the external check passes; the target timestamp is
5 seconds after the commitment; no tolerance flag is given, so the default
one-second tolerance applies. The absolute distance between the target and
the closest commitment's timestamp exceeds the tolerance, so the claim
(and the repository's own test
`test_add_verify_object_with_object_cid_timestamp_tolerance`) requires a
failure with exit code 1 — but the code's one-sided check
`pd.Timestamp(closest) - timestamp_value > tol` compares the signed
difference (here -5 s), so the command succeeds, printing "Timestamp
verification succeeded.". -/
theorem c1_signed_tolerance_check_eval :
    verify_object_core (fun _ => 0) (fun _ _ _ => true) "user"
      [{ timestamp := "1970-01-01 00:00:00" }]
      "0x0000000000000000000000000000000000000000000000000000000000000001"
      5000000000 none = .ok { timestamp := "1970-01-01 00:00:00" } ∧
    |(0 : Int) - 5000000000| > one_second_ns := ⟨rfl, by decide⟩

/-- A 64-hex-digit string lacking the "0x" prefix: it does not match the
CID pattern, yet the CLI accepts it after normalisation. -/
def hex64_bare : String :=
  "0000000000000000000000000000000000000000000000000000000000000001"

/-- C2 counterexample: the input `hex64_bare` does not match
`^0x[0-9a-fA-F]{64}$`, yet `get_object_cid` does not raise a usage error —
it accepts the input and forwards its normalisation ("0x" prepended) to
the external client. -/
theorem c2_counterexample :
    matches_cid_pattern hex64_bare = false ∧
    get_object_cid (some hex64_bare) false [] =
      .ok ("0x" ++ hex64_bare, []) := ⟨by decide, rfl⟩

/-- C2 amended: inputs are first stripped of surrounding whitespace and
prefixed with "0x" when the prefix is missing; an input whose
normalisation does not match the pattern is rejected with a usage error
before the external client is invoked, so every CID value that reaches
the external client matches `^0x[0-9a-fA-F]{64}$`. -/
theorem c2_amended_only_pattern_cids_reach_client
    (object_cid : Option String) (object_cid_stdin : Bool)
    (l_stdin : List String) (v : String) (s : List String)
    (h : get_object_cid object_cid object_cid_stdin l_stdin = .ok (v, s)) :
    matches_cid_pattern v = true := by
  unfold get_object_cid at h
  split at h
  · exact (get_object_cid_tail_ok _ _ _ _ h).2.2
  · split at h
    · split at h
      · cases h
      · exact (get_object_cid_tail_ok _ _ _ _ h).2.2
    · cases h

/-- C2 witness: the amended theorem applied to a concrete accepted
invocation. -/
theorem c2_amended_witness :
    matches_cid_pattern ("0x" ++ hex64_bare) = true :=
  c2_amended_only_pattern_cids_reach_client (some hex64_bare) false []
    ("0x" ++ hex64_bare) [] rfl

/-- The flags of the C3 counterexample: node options set, and the private
key flag given as the empty string. -/
def c3_kw : CsKwargs :=
  { vb_api_key := none
    vb_cs_address := some "0xe7f1725E7734CE288F8367e1Bb143E90bb3F0512"
    vb_cs_node_rpc_url := some "http://node.example"
    vb_cs_private_key := some ""
    vb_forwarder_url := none }

/-- The loaded configuration of the C3 counterexample (also reused by
later witnesses): the private-key environment variable is set and the
file also stores a value. -/
def c3_cfg : VBaseConfig :=
  load_config
    { VBASE_API_KEY := none
      VBASE_COMMITMENT_SERVICE_ADDRESS := none
      VBASE_COMMITMENT_SERVICE_NODE_RPC_URL := none
      VBASE_COMMITMENT_SERVICE_PRIVATE_KEY := some "filekey"
      VBASE_FORWARDER_URL := none }
    { VBASE_API_KEY := none
      VBASE_COMMITMENT_SERVICE_ADDRESS := none
      VBASE_COMMITMENT_SERVICE_NODE_RPC_URL := none
      VBASE_COMMITMENT_SERVICE_PRIVATE_KEY := some "envkey"
      VBASE_FORWARDER_URL := none }

/-- C4 counterexample: for an accepted add-object invocation whose CID
input lacks the "0x" prefix, the CID value given to `add_object` is the
normalised string, not the input string: the two differ. -/
theorem c4_counterexample :
    add_object_cli (some hex64_bare) false [] true =
      .ok (.addObject ("0x" ++ hex64_bare)) ∧
    "0x" ++ hex64_bare ≠ hex64_bare := ⟨rfl, by decide⟩

/-- C4 amended: for every accepted invocation of add-object or
verify-object, the CID value given to the external client — to
`add_object`, and to `find_objects` and `verify_user_object` alike —
equals the user's input CID (from the `--object-cid` flag, or the consumed
stdin token) after format-validation normalisation only: stripped of
surrounding whitespace and prefixed with "0x" when missing
(`cidNormalize`), so an input that already matches the pattern is passed
unmodified; and the RPC URL, contract address, API key and private key
strings supplied as flags reach the client constructors exactly as
supplied. Part one characterises the accepted CID value for both input
sources; part two shows add-object forwards exactly that value; part
three shows verify-object runs the verification core — including the
`verify_user_object` oracle call, exhibited on the closest commitment's
raw indexed timestamp — on exactly that value; part four shows the
constructor arguments equal the flag strings whenever flags are given
non-empty. -/
theorem c4_amended_client_inputs_passthrough :
    (∀ (object_cid : Option String) (object_cid_stdin : Bool)
        (stream : List String) (v : String) (s : List String),
      get_object_cid object_cid object_cid_stdin stream = .ok (v, s) →
      (pyTruthy object_cid = true → v = cidNormalize (object_cid.getD "")) ∧
      (pyTruthy object_cid = false →
        ∃ t rest, stream = t :: rest ∧ v = cidNormalize (pyStrip t) ∧ s = rest)) ∧
    (∀ (object_cid : Option String) (object_cid_stdin : Bool)
        (stream : List String) (v : String) (s : List String),
      cid_group_constraint_ok object_cid object_cid_stdin = true →
      get_object_cid object_cid object_cid_stdin stream = .ok (v, s) →
      add_object_cli object_cid object_cid_stdin stream true =
        .ok (.addObject v)) ∧
    (∀ (pd_ts : String → Option Int) (pd : String → Int)
        (vuo : String → String → String → Bool) (user : String)
        (fo : String → List CommitmentRecord) (object_cid : Option String)
        (object_cid_stdin : Bool) (ts : Option String) (tss : Bool)
        (tol : Option Int) (stream : List String) (v : String)
        (s1 : List String) (tv : Int) (s2 : List String),
      cid_group_constraint_ok object_cid object_cid_stdin = true →
      get_object_cid object_cid object_cid_stdin stream = .ok (v, s1) →
      get_timestamp pd_ts ts tss s1 = .ok (tv, s2) →
      verify_object_cli pd_ts pd vuo user fo object_cid object_cid_stdin
          ts tss tol stream true =
        verify_object_core pd vuo user (fo v) v tv tol ∧
      (∀ x xs, fo v = x :: xs →
        (verify_object_cli pd_ts pd vuo user fo object_cid object_cid_stdin
            ts tss tol stream true =
            .error (.clickFail "Commitment verification failed.") ↔
          vuo user v (closest_object pd tv x xs).timestamp = false))) ∧
    (∀ (kw : CsKwargs) (cfg : VBaseConfig),
      (pyTruthy kw.vb_cs_node_rpc_url = true →
        pyTruthy kw.vb_cs_address = true →
        pyTruthy kw.vb_cs_private_key = true →
        commitment_service kw cfg =
          .ok (.node kw.vb_cs_node_rpc_url kw.vb_cs_address
            kw.vb_cs_private_key)) ∧
      (pyTruthy (resolve_kwargs kw cfg).vb_cs_node_rpc_url = false →
        pyTruthy kw.vb_forwarder_url = true →
        pyTruthy kw.vb_api_key = true →
        pyTruthy kw.vb_cs_private_key = true →
        commitment_service kw cfg =
          .ok (.forwarder kw.vb_forwarder_url kw.vb_api_key
            kw.vb_cs_private_key))) := by
  refine ⟨?_, ?_, ?_, ?_⟩
  · intro object_cid object_cid_stdin stream v s h
    constructor
    · intro ht
      unfold get_object_cid at h
      rw [ht] at h
      simp only [if_true] at h
      exact (get_object_cid_tail_ok _ _ _ _ h).1
    · intro hf
      unfold get_object_cid at h
      rw [hf] at h
      simp only [Bool.false_eq_true, if_false] at h
      split at h
      · split at h
        · simp at h
        · obtain ⟨hv, hs, -⟩ := get_object_cid_tail_ok _ _ _ _ h
          exact ⟨_, _, rfl, hv, hs⟩
      · simp at h
  · intro object_cid object_cid_stdin stream v s hc h
    unfold add_object_cli
    rw [hc]
    simp only [Bool.not_true, Bool.false_eq_true, if_false]
    rw [h]
  · intro pd_ts pd vuo user fo object_cid object_cid_stdin ts tss tol
      stream v s1 tv s2 hc h1 h2
    have heq : verify_object_cli pd_ts pd vuo user fo object_cid
        object_cid_stdin ts tss tol stream true =
        verify_object_core pd vuo user (fo v) v tv tol := by
      unfold verify_object_cli
      simp [hc, h1, h2]
    refine ⟨heq, fun x xs hfo => ?_⟩
    rw [heq, hfo]
    exact verify_core_commit_check_iff pd vuo user v tol x xs tv
  · intro kw cfg
    constructor
    · intro h1 h2 h3
      simp [commitment_service, resolve_kwargs, resolve_kwarg, h1, h2, h3]
    · intro h1 h2 h3 h4
      have hr : (resolve_kwargs kw cfg).vb_forwarder_url = kw.vb_forwarder_url := by
        simp [resolve_kwargs, resolve_kwarg, h2]
      have ha : (resolve_kwargs kw cfg).vb_api_key = kw.vb_api_key := by
        simp [resolve_kwargs, resolve_kwarg, h3]
      have hk : (resolve_kwargs kw cfg).vb_cs_private_key = kw.vb_cs_private_key := by
        simp [resolve_kwargs, resolve_kwarg, h4]
      simp [commitment_service, h1, hr, ha, hk, h2]

/-- Node-service flags for the C4 witness: all three node options given
non-empty. -/
def c4_node_kw : CsKwargs :=
  { vb_api_key := none
    vb_cs_address := some "0xaddr"
    vb_cs_node_rpc_url := some "http://node.example"
    vb_cs_private_key := some "0xkey"
    vb_forwarder_url := none }

/-- Forwarder-service flags for the C4 witness: forwarder URL, API key and
private key given non-empty, node options absent. -/
def c4_fwd_kw : CsKwargs :=
  { vb_api_key := some "apikey"
    vb_cs_address := none
    vb_cs_node_rpc_url := none
    vb_cs_private_key := some "0xkey"
    vb_forwarder_url := some "https://fwd.example" }

/-- C4 witness: the four parts at concrete inputs — a stdin-sourced CID is
the normalised first token; add-object forwards the accepted value; a
verify-object invocation with stdin CID and timestamp runs the core (and
its oracle call) on that value; and truthy flag strings reach both
constructors verbatim. -/
theorem c4_amended_witness :
    (∃ t rest, [hex64_bare] = t :: rest ∧
      "0x" ++ hex64_bare = cidNormalize (pyStrip t) ∧ ([] : List String) = rest) ∧
    add_object_cli (some ("0x" ++ hex64_bare)) false [] true =
      .ok (.addObject ("0x" ++ hex64_bare)) ∧
    (verify_object_cli (fun s => if s = "1970-01-01" then some 0 else none)
        (fun _ => 0) (fun _ _ _ => false) "u" (fun _ => [{ timestamp := "t" }])
        none true none true none [hex64_bare, "1970-01-01"] true =
        .error (.clickFail "Commitment verification failed.") ↔
      (fun _ _ _ => false : String → String → String → Bool) "u"
        ("0x" ++ hex64_bare)
        (closest_object (fun _ => 0) 0 { timestamp := "t" } []).timestamp =
        false) ∧
    commitment_service c4_node_kw c3_cfg =
      .ok (.node (some "http://node.example") (some "0xaddr") (some "0xkey")) ∧
    commitment_service c4_fwd_kw c3_cfg =
      .ok (.forwarder (some "https://fwd.example") (some "apikey")
        (some "0xkey")) :=
  by
  refine ⟨?_, ?_, ?_, ?_, ?_⟩
  · exact (c4_amended_client_inputs_passthrough.1 none true [hex64_bare]
      ("0x" ++ hex64_bare) [] rfl).2 rfl
  · exact c4_amended_client_inputs_passthrough.2.1 (some ("0x" ++ hex64_bare))
      false [] ("0x" ++ hex64_bare) [] (by decide) rfl
  · exact (c4_amended_client_inputs_passthrough.2.2.1
      (fun s => if s = "1970-01-01" then some 0 else none) (fun _ => 0)
      (fun _ _ _ => false) "u" (fun _ => [{ timestamp := "t" }]) none true
      none true none [hex64_bare, "1970-01-01"]
      ("0x" ++ hex64_bare) ["1970-01-01"] 0 [] (by decide) rfl rfl).2
      { timestamp := "t" } [] rfl
  · exact (c4_amended_client_inputs_passthrough.2.2.2 c4_node_kw c3_cfg).1
      (by decide) (by decide) (by decide)
  · have h1 : pyTruthy (resolve_kwargs c4_fwd_kw c3_cfg).vb_cs_node_rpc_url = false := by
      decide
    exact (c4_amended_client_inputs_passthrough.2.2.2 c4_fwd_kw c3_cfg).2
      h1 (by decide) (by decide) (by decide)

/-- C3 counterexample: the private-key flag IS given (as the empty
string), yet the value used to construct the client is the environment
value, not the flag value — against the claim that a given flag value is
always used. -/
theorem c3_counterexample :
    c3_kw.vb_cs_private_key = some "" ∧
    commitment_service c3_kw c3_cfg =
      .ok (.node (some "http://node.example")
        (some "0xe7f1725E7734CE288F8367e1Bb143E90bb3F0512") (some "envkey")) ∧
    (some "envkey" : Option String) ≠ some "" := ⟨rfl, rfl, by decide⟩

/-- C3 amended: for every configuration key, if a NON-EMPTY flag value is
given, the value used equals the flag value regardless of the environment
and file values; otherwise, if the environment variable is set, the value
used equals the environment value regardless of the file value; otherwise
the value used equals the file value. (`resolve_kwarg` composed with
`load_config_var` is, per key, exactly the resolution `commitment_service`
applies before constructing the client.) -/
theorem c3_amended_flag_env_file_precedence (flag env file : Option String) :
    (pyTruthy flag = true →
      resolve_kwarg flag (load_config_var env file) = flag) ∧
    (pyTruthy flag = false → ∀ e, env = some e →
      resolve_kwarg flag (load_config_var env file) = some e) ∧
    (pyTruthy flag = false → env = none →
      resolve_kwarg flag (load_config_var env file) = file) := by
  refine ⟨fun h => ?_, fun h e he => ?_, fun h he => ?_⟩
  · simp [resolve_kwarg, h]
  · simp [resolve_kwarg, h, load_config_var, he]
  · simp [resolve_kwarg, h, load_config_var, he]

/-- C3 witness: the three precedence clauses at concrete values — a
non-empty flag wins; with no flag the environment wins; with neither the
file value is used. -/
theorem c3_amended_witness :
    resolve_kwarg (some "flagval") (load_config_var (some "envval") (some "fileval")) =
      some "flagval" ∧
    resolve_kwarg none (load_config_var (some "envval") (some "fileval")) =
      some "envval" ∧
    resolve_kwarg none (load_config_var none (some "fileval")) =
      some "fileval" :=
  ⟨(c3_amended_flag_env_file_precedence (some "flagval") (some "envval")
      (some "fileval")).1 (by decide),
    (c3_amended_flag_env_file_precedence none (some "envval")
      (some "fileval")).2.1 rfl "envval" rfl,
    (c3_amended_flag_env_file_precedence none none
      (some "fileval")).2.2 rfl rfl⟩

/-- C9: an empty-string flag value is treated as absent — per key it never
overrides the loaded (environment/file) value, behaving exactly like a
missing flag, and the whole `commitment_service` resolution is unchanged
by replacing an empty-string private-key flag with an absent one: the
precedence test is Python truthiness, not presence. -/
theorem c9_empty_flag_treated_as_absent :
    (∀ cfgval : Option String,
      resolve_kwarg (some "") cfgval = cfgval ∧
      resolve_kwarg none cfgval = cfgval) ∧
    (∀ (kw : CsKwargs) (cfg : VBaseConfig),
      commitment_service { kw with vb_cs_private_key := some "" } cfg =
        commitment_service { kw with vb_cs_private_key := none } cfg) := by
  constructor
  · exact fun c => ⟨resolve_kwarg_empty c, resolve_kwarg_none c⟩
  · intro kw cfg
    unfold commitment_service resolve_kwargs
    rw [resolve_kwarg_empty, resolve_kwarg_none]

/-- C5: supplying neither or both of `--object-cid` / `--object-cid-stdin`
violates the `RequireExactly(1)` constraint, and both the add-object and
verify-object pipelines then stop with a usage error (non-zero exit code,
no call to the external client reaching `.ok`); supplying exactly one
satisfies the option-parsing constraint. -/
theorem c5_exactly_one_cid_option
    (object_cid : Option String) (object_cid_stdin : Bool)
    (l_stdin : List String) (vbc : Bool) (pd_ts : String → Option Int)
    (pd : String → Int) (vuo : String → String → String → Bool)
    (user : String) (fo : String → List CommitmentRecord)
    (ts : Option String) (tss : Bool) (tol : Option Int) :
    (cid_group_set_count object_cid object_cid_stdin ≠ 1 →
      (∃ m, add_object_cli object_cid object_cid_stdin l_stdin vbc =
          .error (.usage m) ∧ cliErrorExitCode (.usage m) ≠ 0) ∧
      (∃ m, verify_object_cli pd_ts pd vuo user fo object_cid object_cid_stdin
          ts tss tol l_stdin vbc = .error (.usage m) ∧
          cliErrorExitCode (.usage m) ≠ 0)) ∧
    (cid_group_set_count object_cid object_cid_stdin = 1 →
      cid_group_constraint_ok object_cid object_cid_stdin = true) := by
  constructor
  · intro h
    have hc : cid_group_constraint_ok object_cid object_cid_stdin = false := by
      simp [cid_group_constraint_ok, h]
    constructor
    · exact ⟨"Exactly 1 of the following parameters must be set: --object-cid, --object-cid-stdin.",
        by simp [add_object_cli, hc], by simp [cliErrorExitCode]⟩
    · exact ⟨"Exactly 1 of the following parameters must be set: --object-cid, --object-cid-stdin.",
        by simp [verify_object_cli, hc], by simp [cliErrorExitCode]⟩
  · intro h
    simp [cid_group_constraint_ok, h]

/-- C5 witness: with neither option supplied, both commands stop with a
usage error; with exactly one supplied the constraint is satisfied. -/
theorem c5_witness :
    ((∃ m, add_object_cli none false ["tok"] true = .error (.usage m) ∧
        cliErrorExitCode (.usage m) ≠ 0) ∧
      (∃ m, verify_object_cli (fun _ => none) (fun _ => 0) (fun _ _ _ => true)
          "u" (fun _ => []) none false none false none ["tok"] true =
          .error (.usage m) ∧ cliErrorExitCode (.usage m) ≠ 0)) ∧
    cid_group_constraint_ok none true = true :=
  ⟨(c5_exactly_one_cid_option none false ["tok"] true (fun _ => none)
      (fun _ => 0) (fun _ _ _ => true) "u" (fun _ => []) none false none).1
      (by decide),
    (c5_exactly_one_cid_option none true ["tok"] true (fun _ => none)
      (fun _ => 0) (fun _ _ _ => true) "u" (fun _ => []) none false none).2
      (by decide)⟩

/-- C6: after precedence resolution, if neither the node RPC URL nor the
forwarder URL is truthy the group command raises a descriptive usage error
(exit code 2, no client constructed); when the node RPC URL is truthy a
node-backed client is constructed from the resolved RPC URL, contract
address and private key; otherwise, when the forwarder URL is truthy, a
forwarder-backed client is constructed from the resolved forwarder URL,
API key and private key. -/
theorem c6_client_construction (kw : CsKwargs) (cfg : VBaseConfig) :
    (pyTruthy (resolve_kwargs kw cfg).vb_cs_node_rpc_url = false →
      pyTruthy (resolve_kwargs kw cfg).vb_forwarder_url = false →
      commitment_service kw cfg =
        .error (.usage
          "You must specify either --vb-cs-node-rpc-url or --vb-forwarder-url.") ∧
      cliErrorExitCode
        (.usage "You must specify either --vb-cs-node-rpc-url or --vb-forwarder-url.")
        ≠ 0) ∧
    (pyTruthy (resolve_kwargs kw cfg).vb_cs_node_rpc_url = true →
      commitment_service kw cfg =
        .ok (.node (resolve_kwargs kw cfg).vb_cs_node_rpc_url
          (resolve_kwargs kw cfg).vb_cs_address
          (resolve_kwargs kw cfg).vb_cs_private_key)) ∧
    (pyTruthy (resolve_kwargs kw cfg).vb_cs_node_rpc_url = false →
      pyTruthy (resolve_kwargs kw cfg).vb_forwarder_url = true →
      commitment_service kw cfg =
        .ok (.forwarder (resolve_kwargs kw cfg).vb_forwarder_url
          (resolve_kwargs kw cfg).vb_api_key
          (resolve_kwargs kw cfg).vb_cs_private_key)) := by
  refine ⟨fun h1 h2 => ⟨?_, by simp [cliErrorExitCode]⟩, fun h1 => ?_,
    fun h1 h2 => ?_⟩
  · simp [commitment_service, h1, h2]
  · simp [commitment_service, h1]
  · simp [commitment_service, h1, h2]

/-- C6 witness: the three construction cases at concrete configurations. -/
theorem c6_witness :
    commitment_service
      { vb_api_key := none, vb_cs_address := none, vb_cs_node_rpc_url := none,
        vb_cs_private_key := none, vb_forwarder_url := none }
      c3_cfg =
      .error (.usage
        "You must specify either --vb-cs-node-rpc-url or --vb-forwarder-url.") ∧
    commitment_service c3_kw c3_cfg =
      .ok (.node (some "http://node.example")
        (some "0xe7f1725E7734CE288F8367e1Bb143E90bb3F0512") (some "envkey")) ∧
    commitment_service
      { vb_api_key := some "apikey", vb_cs_address := none,
        vb_cs_node_rpc_url := none, vb_cs_private_key := none,
        vb_forwarder_url := some "https://fwd.example" }
      c3_cfg =
      .ok (.forwarder (some "https://fwd.example") (some "apikey")
        (some "envkey")) :=
  ⟨((c6_client_construction _ c3_cfg).1 (by decide) (by decide)).1,
    (c6_client_construction c3_kw c3_cfg).2.1 (by decide),
    (c6_client_construction _ c3_cfg).2.2 (by decide) (by decide)⟩

/-- C7: the three verification-failure cases each stop with their distinct
`fail()` message — "No matching objects found." for an empty indexing
result, "Commitment verification failed." when the external check returns
false, and "Timestamp verification failed." when the tolerance check
trips — all raised as `click.ClickException` (exit code 1, never 0), a
different error kind than a usage error. -/
theorem c7_distinct_failure_messages (pd : String → Int)
    (vuo : String → String → String → Bool) (user cid : String) (tv : Int)
    (tol : Option Int) (l : List CommitmentRecord) :
    (l = [] → verify_object_core pd vuo user l cid tv tol =
      .error (.clickFail "No matching objects found.")) ∧
    (∀ x xs, l = x :: xs →
      (vuo user cid (closest_object pd tv x xs).timestamp = false →
        verify_object_core pd vuo user l cid tv tol =
          .error (.clickFail "Commitment verification failed.")) ∧
      (vuo user cid (closest_object pd tv x xs).timestamp = true →
        pd (closest_object pd tv x xs).timestamp - tv > tol.getD one_second_ns →
        verify_object_core pd vuo user l cid tv tol =
          .error (.clickFail "Timestamp verification failed."))) ∧
    ((∀ m, cliErrorExitCode (.clickFail m) = 1) ∧
      (∀ m m2, CliError.clickFail m ≠ CliError.usage m2)) := by
  refine ⟨?_, ?_, fun m => rfl, fun m m2 h => by cases h⟩
  · rintro rfl
    rfl
  · rintro x xs rfl
    constructor
    · intro hv
      simp [verify_object_core, hv]
    · intro hv ht
      simp [verify_object_core, hv, ht]

/-- C7 witness: each failure case at a concrete input. -/
theorem c7_witness :
    verify_object_core (fun _ => 0) (fun _ _ _ => true) "u" [] "c" 0 none =
      .error (.clickFail "No matching objects found.") ∧
    verify_object_core (fun _ => 0) (fun _ _ _ => false) "u"
      [{ timestamp := "t" }] "c" 0 none =
      .error (.clickFail "Commitment verification failed.") ∧
    verify_object_core (fun _ => 0) (fun _ _ _ => true) "u"
      [{ timestamp := "t" }] "c" (-5000000000) none =
      .error (.clickFail "Timestamp verification failed.") :=
  ⟨(c7_distinct_failure_messages (fun _ => 0) (fun _ _ _ => true) "u" "c" 0
      none []).1 rfl,
    ((c7_distinct_failure_messages (fun _ => 0) (fun _ _ _ => false) "u" "c" 0
      none [{ timestamp := "t" }]).2.1 { timestamp := "t" } [] rfl).1 rfl,
    ((c7_distinct_failure_messages (fun _ => 0) (fun _ _ _ => true) "u" "c"
      (-5000000000) none [{ timestamp := "t" }]).2.1 { timestamp := "t" } []
      rfl).2 rfl (by decide)⟩

/-- C8: with both `--object-cid-stdin` and `--timestamp-stdin` and a stdin
stream of at least two tokens, a successful parse takes the object CID
from the first token (stripped and normalised) and the timestamp from the
second token (stripped and parsed): each stdin-sourced parameter consumes
exactly one token, in order, leaving the rest of the stream. -/
theorem c8_stdin_tokens_consumed_in_order (pd_ts : String → Option Int)
    (t0 t1 : String) (rest : List String) (v : String) (s1 : List String)
    (tv : Int) (s2 : List String)
    (h1 : get_object_cid none true (t0 :: t1 :: rest) = .ok (v, s1))
    (h2 : get_timestamp pd_ts none true s1 = .ok (tv, s2)) :
    v = cidNormalize (pyStrip t0) ∧ s1 = t1 :: rest ∧
    pd_ts (pyStrip t1) = some tv ∧ s2 = rest := by
  have h1' : get_object_cid_tail (pyStrip t0) (t1 :: rest) = .ok (v, s1) := by
    simpa [get_object_cid, pyTruthy] using h1
  obtain ⟨hv, hs, -⟩ := get_object_cid_tail_ok _ _ _ _ h1'
  subst hs
  have h2' : get_timestamp_tail pd_ts (pyStrip t1) rest = .ok (tv, s2) := by
    simpa [get_timestamp, pyTruthy] using h2
  obtain ⟨hp, hs2⟩ := get_timestamp_tail_ok _ _ _ _ _ h2'
  exact ⟨hv, rfl, hp, hs2⟩

/-- C8 witness: a concrete two-token stdin stream, with a parse map
sending "1970-01-01" to epoch 0. -/
theorem c8_witness :
    cidNormalize (pyStrip hex64_bare) = "0x" ++ hex64_bare ∧
    (fun s => if s = "1970-01-01" then some (0 : Int) else none) "1970-01-01" =
      some 0 ∧
    ([] : List String) = [] :=
  by
    have h := c8_stdin_tokens_consumed_in_order
      (fun s => if s = "1970-01-01" then some (0 : Int) else none)
      hex64_bare "1970-01-01" [] ("0x" ++ hex64_bare)
      ["1970-01-01"] 0 [] rfl rfl
    exact ⟨h.1.symm, by rw [← h.2.2.1]; rfl, h.2.2.2⟩

/-- C10: for a non-empty indexing result, the external `verify_user_object`
check is applied to the closest commitment's own raw indexed timestamp —
the verify-object flow ends in "Commitment verification failed." exactly
when the oracle is false on that timestamp — so, whenever two target
timestamps select the same closest commitment, the commitment-check
outcome is identical: the target influences the check only through the
choice of closest commitment. -/
theorem c10_external_check_uses_indexed_timestamp (pd : String → Int)
    (vuo : String → String → String → Bool) (user cid : String)
    (tol : Option Int) (x : CommitmentRecord) (xs : List CommitmentRecord)
    (tv : Int) :
    (verify_object_core pd vuo user (x :: xs) cid tv tol =
        .error (.clickFail "Commitment verification failed.") ↔
      vuo user cid (closest_object pd tv x xs).timestamp = false) ∧
    (∀ t1 t2 : Int, closest_object pd t1 x xs = closest_object pd t2 x xs →
      (verify_object_core pd vuo user (x :: xs) cid t1 tol =
          .error (.clickFail "Commitment verification failed.") ↔
        verify_object_core pd vuo user (x :: xs) cid t2 tol =
          .error (.clickFail "Commitment verification failed."))) := by
  have key : ∀ t : Int,
      (verify_object_core pd vuo user (x :: xs) cid t tol =
        .error (.clickFail "Commitment verification failed.") ↔
      vuo user cid (closest_object pd t x xs).timestamp = false) := by
    intro t
    rcases hv : vuo user cid (closest_object pd t x xs).timestamp with _ | _
    · simp [verify_object_core, hv]
    · constructor
      · intro h
        simp only [verify_object_core, hv, Bool.not_true, Bool.false_eq_true,
          if_false] at h
        split at h
        · simp at h
        · cases h
      · intro h
        cases h
  refine ⟨key tv, fun t1 t2 hc => ?_⟩
  rw [key t1, key t2, hc]

/-- C10 witness: at a concrete non-empty indexing result, both parts of
the theorem instantiated; the second with the trivially equal closest
selections at an identical target. -/
theorem c10_witness :
    (verify_object_core (fun _ => 0) (fun _ _ _ => false) "u"
        [{ timestamp := "t" }] "c" 0 none =
        .error (.clickFail "Commitment verification failed.") ↔
      (fun _ _ _ => false : String → String → String → Bool) "u" "c"
        (closest_object (fun _ => 0) 0 { timestamp := "t" } []).timestamp =
        false) ∧
    (verify_object_core (fun _ => 0) (fun _ _ _ => false) "u"
        [{ timestamp := "t" }] "c" 0 none =
        .error (.clickFail "Commitment verification failed.") ↔
      verify_object_core (fun _ => 0) (fun _ _ _ => false) "u"
        [{ timestamp := "t" }] "c" 0 none =
        .error (.clickFail "Commitment verification failed.")) :=
  ⟨(c10_external_check_uses_indexed_timestamp (fun _ => 0) (fun _ _ _ => false)
      "u" "c" none { timestamp := "t" } [] 0).1,
    (c10_external_check_uses_indexed_timestamp (fun _ => 0) (fun _ _ _ => false)
      "u" "c" none { timestamp := "t" } [] 0).2 0 0 rfl⟩
